import Mathlib

/-!
Verification of the Week-03 financial dashboard pipeline (app/utlis.py):
fetch_data, validate_df and add_features, modelled as a shallow embedding.

Floating point cells are modelled exactly: a cell is either NaN, an
infinity, a rational number, or (for the Rolling_Volatility column only)
the symbolic nonnegative square root of a rational sample variance.
DataFrames are rectangular tables with a list of column labels, an
integer timestamp index and row-major data.
-/

namespace Week03

/-- A pandas cell value. `nan` is the undefined marker, `inf`/`neginf`
the IEEE infinities, `num q` a finite value (modelled exactly as a
rational), and `rt q` the nonnegative square root of `q` kept in
symbolic form; `rt` only ever appears in the Rolling_Volatility column,
which the pipeline stores but never feeds back into arithmetic. -/
inductive FVal where
  | nan
  | inf
  | neginf
  | num (q : ℚ)
  | rt (q : ℚ)
deriving DecidableEq

/-- Is the cell the undefined marker NaN? (pandas `isna`). -/
def FVal.isNan : FVal → Bool
  | .nan => true
  | _ => false

/-- pandas `notna`: everything but NaN counts as defined, infinities included. -/
def FVal.isDefined (v : FVal) : Bool := !v.isNan

/-- Is the cell a finite numeric value? -/
def FVal.isFin : FVal → Bool
  | .num _ => true
  | _ => false

/-- Extract the rational of a finite cell (0 otherwise; only used under an `isFin` guard). -/
def FVal.toQ : FVal → ℚ
  | .num q => q
  | _ => 0

/-- IEEE addition on cells (NaN propagates, inf + (-inf) = NaN).
Symbolic `rt` cells are never added by the pipeline; they fall to the NaN
catch-all together with the NaN operands. -/
def fadd : FVal → FVal → FVal
  | .num a, .num b => .num (a + b)
  | .num _, .inf => .inf
  | .inf, .num _ => .inf
  | .num _, .neginf => .neginf
  | .neginf, .num _ => .neginf
  | .inf, .inf => .inf
  | .neginf, .neginf => .neginf
  | _, _ => .nan

/-- IEEE subtraction on cells (NaN propagates, inf - inf = NaN). -/
def fsub : FVal → FVal → FVal
  | .num a, .num b => .num (a - b)
  | .num _, .inf => .neginf
  | .num _, .neginf => .inf
  | .inf, .num _ => .inf
  | .neginf, .num _ => .neginf
  | .inf, .neginf => .inf
  | .neginf, .inf => .neginf
  | _, _ => .nan

/-- IEEE division on cells: x/0 is ±inf for x ≠ 0 and NaN for 0/0
(numpy semantics used by pandas column division). -/
def fdiv : FVal → FVal → FVal
  | .num a, .num b =>
      if b = 0 then (if a = 0 then .nan else if 0 < a then .inf else .neginf)
      else .num (a / b)
  | .num _, .inf => .num 0
  | .num _, .neginf => .num 0
  | .inf, .num b => if b < 0 then .neginf else .inf
  | .neginf, .num b => if b < 0 then .inf else .neginf
  | _, _ => .nan

/-- pandas `Series.shift(1)` read at position `t`: NaN at the first row,
the previous entry afterwards. -/
def shiftOne (c : ℕ → FVal) (t : ℕ) : FVal :=
  if t = 0 then .nan else c (t - 1)

/-- The daily_return formula of add_features:
`(Close - Close.shift(1)) / Close.shift(1)` read at position `t`. -/
def dailyReturnAt (c : ℕ → FVal) (t : ℕ) : FVal :=
  fdiv (fsub (c t) (shiftOne c t)) (shiftOne c t)

/-- The `w` trailing values of column `c` ending at position `t`
(meaningful when `w ≤ t + 1`). -/
def windowVals (c : ℕ → FVal) (w t : ℕ) : List FVal :=
  (List.range w).map (fun i => c (t + 1 - w + i))

/-- pandas `Series.rolling(window=w).mean()` read at position `t`:
NaN during the warm-up (fewer than `w` observations) and whenever the
window contains a NaN (min_periods defaults to the window size),
otherwise the window sum divided by `w`. -/
def rollingMean (c : ℕ → FVal) (w : ℕ) (t : ℕ) : FVal :=
  if t + 1 < w then .nan
  else if (windowVals c w t).any (fun x => x.isNan) then .nan
  else fdiv ((windowVals c w t).foldl fadd (.num 0)) (.num (w : ℚ))

/-- pandas `Series.rolling(window=w).std()` read at position `t`: sample
standard deviation (ddof = 1) of the trailing window. NaN during warm-up,
when the window contains a NaN, when `w ≤ 1` (zero degrees of freedom)
and when the window contains an infinity; otherwise the square root of
the sample variance, kept symbolically as `FVal.rt`. -/
def rollingStd (c : ℕ → FVal) (w : ℕ) (t : ℕ) : FVal :=
  if t + 1 < w then .nan
  else if (windowVals c w t).any (fun x => x.isNan) then .nan
  else if w ≤ 1 then .nan
  else if (windowVals c w t).any (fun x => !x.isFin) then .nan
  else
    .rt (((((windowVals c w t).map FVal.toQ)).map
      (fun x => (x - ((windowVals c w t).map FVal.toQ).sum / (w : ℚ)) ^ 2)).sum
        / ((w : ℚ) - 1))

/-- A pandas DataFrame: column labels, an integer timestamp index, the
row-major cell data, and whether the index is a DatetimeIndex. -/
structure DataFrame where
  cols : List String
  index : List Int
  data : List (List FVal)
  indexIsDatetime : Bool
deriving DecidableEq

instance : Inhabited DataFrame := ⟨⟨[], [], [], true⟩⟩

/-- A DataFrame is rectangular: one data row per index entry, and every
row as wide as the label list. -/
def Wf (df : DataFrame) : Prop :=
  df.data.length = df.index.length ∧ ∀ r ∈ df.data, r.length = df.cols.length

instance (df : DataFrame) : Decidable (Wf df) := by
  unfold Wf; infer_instance

/-- The canonical OHLCV label set of a PriceSeries. -/
def OHLCV : List String := ["Open", "High", "Low", "Close", "Volume"]

/-- The labels add_features appends, in assignment order. -/
def FEATCOLS : List String :=
  ["daily_return", "SMA_Short", "SMA_Long", "Rolling_Volatility"]

/-- REQUIRED_COLS of utlis.py (a Python set; modelled as a list with
membership semantics). -/
def REQUIRED_COLS : List String := OHLCV

/-- Append a fresh column: row `t` gains the cell `f t` at its end. -/
def appendColVals (f : ℕ → FVal) : ℕ → List (List FVal) → List (List FVal)
  | _, [] => []
  | t, row :: rest => (row ++ [f t]) :: appendColVals f (t + 1) rest

/-- Overwrite an existing column at label position `j`. -/
def setColVals (j : ℕ) (f : ℕ → FVal) : ℕ → List (List FVal) → List (List FVal)
  | _, [] => []
  | t, row :: rest => row.set j (f t) :: setColVals j f (t + 1) rest

/-- pandas column assignment `df[name] = series`: overwrite the column if
the label exists, append it otherwise. -/
def setCol (df : DataFrame) (name : String) (f : ℕ → FVal) : DataFrame :=
  (df.cols.findIdx? (· == name)).elim
    { cols := df.cols ++ [name], index := df.index,
      data := appendColVals f 0 df.data, indexIsDatetime := df.indexIsDatetime }
    (fun j => { df with data := setColVals j f 0 df.data })

/-- pandas column read `df[name][t]` (NaN when out of range; the pipeline
only reads labels that exist, at positions inside the frame). -/
def getCol (df : DataFrame) (name : String) (t : ℕ) : FVal :=
  ((df.cols.findIdx? (· == name)).map
    (fun j => (df.data.getD t []).getD j FVal.nan)).getD FVal.nan

/-- A Python exception: its class and its message. -/
structure PyErr where
  cls : String
  msg : String
deriving DecidableEq

/-- The raise in fetch_data: ValueError with the symbol in the message. -/
def noDataErr (ticker : String) : PyErr :=
  ⟨"ValueError", "No data found for " ++ ticker ++ ". Check ticker or date range."⟩

/-- The schema raise in validate_df (the Python code interpolates the
missing-column set into the message). -/
def schemaErr (missing : List String) : PyErr :=
  ⟨"ValueError", "Missing required columns: " ++ toString missing⟩

/-- The index-type raise in validate_df. -/
def indexTypeErr : PyErr := ⟨"ValueError", "Index must be a DatetimeIndex"⟩

/-- The duplicate-timestamp raise in validate_df. -/
def dupTsErr : PyErr := ⟨"ValueError", "Duplicate timestamps detected in DF.index"⟩

/-- The empty-input raise in add_features. -/
def emptyInputErr : PyErr := ⟨"ValueError", "Cannot compute features on an empty DF"⟩

/-- The three failure conditions of validate_df, as the spec taxonomy
names them (SchemaError, IndexTypeError, DuplicateTimestampError). -/
inductive VErr where
  | schema (missing : List String)
  | indexType
  | dupTs
deriving DecidableEq

/-- The Python exception each validate_df failure actually raises. -/
def VErr.toPyErr : VErr → PyErr
  | .schema m => schemaErr m
  | .indexType => indexTypeErr
  | .dupTs => dupTsErr

/-- `REQUIRED_COLS - set(DF.columns)` of validate_df. -/
def missingCols (df : DataFrame) : List String :=
  REQUIRED_COLS.filter (fun c => !(df.cols.contains c))

/-- pandas `Index.has_duplicates`. -/
def hasDupB : List Int → Bool
  | [] => false
  | a :: rest => rest.contains a || hasDupB rest

/-- pandas `Index.is_monotonic_increasing` (non-strict). -/
def isMonotonicB : List Int → Bool
  | [] => true
  | [_] => true
  | a :: b :: rest => decide (a ≤ b) && isMonotonicB (b :: rest)

/-- Row order for `DF.sort_index`: compare timestamps. -/
def rowLe (p q : Int × List FVal) : Prop := p.1 ≤ q.1

instance : DecidableRel rowLe := fun p q => inferInstanceAs (Decidable (p.1 ≤ q.1))

instance : IsTotal (Int × List FVal) rowLe := ⟨fun p q => Int.le_total p.1 q.1⟩

instance : IsTrans (Int × List FVal) rowLe := ⟨fun _ _ _ h h2 => le_trans h h2⟩

/-- `DF.sort_index(inplace=True)`: reorder the rows (index entry together
with its data row) into ascending timestamp order. -/
def sortByIndex (df : DataFrame) : DataFrame :=
  let zs := (df.index.zip df.data).insertionSort rowLe
  { df with index := zs.map Prod.fst, data := zs.map Prod.snd }

/-- validate_df: returns the table state after the call together with the
raised error, if any. The checks run in source order (schema, index type,
duplicates); the only mutation is the sort-repair at the end. -/
def validateDf (df : DataFrame) : DataFrame × Option VErr :=
  if missingCols df ≠ [] then (df, some (.schema (missingCols df)))
  else if df.indexIsDatetime = false then (df, some .indexType)
  else if hasDupB df.index then (df, some .dupTs)
  else if isMonotonicB df.index then (df, none)
  else (sortByIndex df, none)

/-- The body of add_features after the empty guard: DF_out = DF.copy()
followed by the four column assignments, in source order. -/
def featize (df : DataFrame) (s l v : ℕ) : DataFrame :=
  let d0 := df
  let d1 := setCol d0 "daily_return" (dailyReturnAt (getCol d0 "Close"))
  let d2 := setCol d1 "SMA_Short" (rollingMean (getCol d1 "Close") s)
  let d3 := setCol d2 "SMA_Long" (rollingMean (getCol d2 "Close") l)
  let d4 := setCol d3 "Rolling_Volatility" (rollingStd (getCol d3 "Close") v)
  d4

/-- add_features: raise on an empty frame, otherwise return the
augmented copy. -/
def addFeatures (df : DataFrame) (s l v : ℕ) : Except PyErr DataFrame :=
  if df.index.isEmpty || df.cols.isEmpty then .error emptyInputErr
  else .ok (featize df s l v)

/-- Header cells of `DF_out.to_csv(index=True)`: the index label cell
followed by the column labels, verbatim. -/
def toCsvHeader (df : DataFrame) (indexLabel : String) : List String :=
  indexLabel :: df.cols

/-- Column labels of a provider result: flat, or a MultiIndex of pairs
when yfinance batches symbols. -/
inductive ColLabels where
  | flat (names : List String)
  | multi (pairs : List (String × String))
deriving DecidableEq

/-- `DF.columns.get_level_values(0)` collapse of flatten_columns. -/
def flattenLabels : ColLabels → List String
  | .flat ns => ns
  | .multi ps => ps.map Prod.fst

/-- A raw yfinance result before normalization. -/
structure PdFrame where
  labels : ColLabels
  index : List Int
  data : List (List FVal)
deriving DecidableEq

/-- pandas `DF.empty`: some axis has length zero. -/
def pdIsEmpty (r : PdFrame) : Bool :=
  r.index.isEmpty || (flattenLabels r.labels).isEmpty

/-- The external provider `yf.download`: `none` models a missing result,
`some` a (possibly empty) frame. -/
def Provider := String → String → String → Option PdFrame

/-- Did the provider return nothing for this request? -/
def providerEmpty (pr : Provider) (ticker d1 d2 : String) : Bool :=
  match pr ticker d1 d2 with
  | none => true
  | some r => pdIsEmpty r

/-- fetch_data: raise ValueError on an empty provider result, otherwise
flatten the columns and convert the index to datetime. -/
def fetchData (pr : Provider) (ticker d1 d2 : String) : Except PyErr DataFrame :=
  match pr ticker d1 d2 with
  | none => .error (noDataErr ticker)
  | some r =>
      if pdIsEmpty r then .error (noDataErr ticker)
      else .ok { cols := flattenLabels r.labels, index := r.index,
                 data := r.data, indexIsDatetime := true }

/-- Is `l` a prefix of `m` (by characters)? -/
def listPrefix : List Char → List Char → Bool
  | [], _ => true
  | _ :: _, [] => false
  | a :: l, b :: m => a == b && listPrefix l m

/-- Does `l` occur contiguously inside `m`? -/
def listInfix (l : List Char) : List Char → Bool
  | [] => l.isEmpty
  | b :: m => listPrefix l (b :: m) || listInfix l m

/-- Does the string `sub` occur inside `s`? -/
def containsSub (s sub : String) : Bool := listInfix sub.data s.data

/-- add_features over an explicit object heap: variable DF is the object
at address `a`; `DF_out = DF.copy()` allocates a fresh object, the four
assignments mutate only that fresh object, and its address is returned. -/
def addFeaturesHeap (heap : List DataFrame) (a s l v : ℕ) :
    List DataFrame × Except PyErr ℕ :=
  let DF := heap.getD a default
  if DF.index.isEmpty || DF.cols.isEmpty then (heap, .error emptyInputErr)
  else
    let b := heap.length
    let h1 := heap ++ [DF]
    let h2 := h1.set b (setCol (h1.getD b default) "daily_return"
      (dailyReturnAt (getCol (h1.getD b default) "Close")))
    let h3 := h2.set b (setCol (h2.getD b default) "SMA_Short"
      (rollingMean (getCol (h2.getD b default) "Close") s))
    let h4 := h3.set b (setCol (h3.getD b default) "SMA_Long"
      (rollingMean (getCol (h3.getD b default) "Close") l))
    let h5 := h4.set b (setCol (h4.getD b default) "Rolling_Volatility"
      (rollingStd (getCol (h4.getD b default) "Close") v))
    (h5, .ok b)

/-- The output DataFrame of a heap-level add_features call. -/
def heapOut (p : List DataFrame × Except PyErr ℕ) : Except PyErr DataFrame :=
  p.2.map (fun b => p.1.getD b default)

/-- Extract the ok value of an add_features call (default on error). -/
def exOut (e : Except PyErr DataFrame) : DataFrame :=
  match e with
  | .ok o => o
  | .error _ => default

/-- Scenario A input: three rows with Close = [100, 102, 101]. -/
def dfA : DataFrame :=
  { cols := OHLCV
  , index := [0, 1, 2]
  , data := [[.num 1, .num 1, .num 1, .num 100, .num 1],
             [.num 1, .num 1, .num 1, .num 102, .num 1],
             [.num 1, .num 1, .num 1, .num 101, .num 1]]
  , indexIsDatetime := true }

/-- Scenario A output (short_window = 2). -/
def outA : DataFrame := exOut (addFeatures dfA 2 3 3)

/-- The rationals of the trailing length-2 Close window ending at row 2
of Scenario A. -/
def qA : ℕ → ℚ := fun i => if i = 0 then 102 else 101

/-- A frame whose Open column is absent but whose index is a unique,
unsorted DatetimeIndex. -/
def dfC6 : DataFrame :=
  { cols := ["High", "Low", "Close", "Volume"]
  , index := [5, 3]
  , data := [[.num 1, .num 1, .num 10, .num 1],
             [.num 1, .num 1, .num 20, .num 1]]
  , indexIsDatetime := true }

/-- A validated two-row frame with Close = [0, 0]. -/
def df9 : DataFrame :=
  { cols := OHLCV
  , index := [0, 1]
  , data := [[.num 1, .num 1, .num 1, .num 0, .num 1],
             [.num 1, .num 1, .num 1, .num 0, .num 1]]
  , indexIsDatetime := true }

/-- Scenario-A-shaped output on the zero-Close frame. -/
def out9 : DataFrame := exOut (addFeatures df9 2 2 2)

/-- A frame missing its Open column (schema failure input). -/
def dfMissingOpen : DataFrame :=
  { cols := ["High", "Low", "Close", "Volume"]
  , index := [0]
  , data := [[.num 1, .num 1, .num 1, .num 1]]
  , indexIsDatetime := true }

/-- A frame with all columns but a non-datetime index. -/
def dfBadIndex : DataFrame :=
  { cols := OHLCV
  , index := [0, 1]
  , data := [[.num 1, .num 1, .num 1, .num 1, .num 1],
             [.num 1, .num 1, .num 1, .num 2, .num 1]]
  , indexIsDatetime := false }

/-- A frame with a duplicated timestamp. -/
def dfDupTs : DataFrame :=
  { cols := OHLCV
  , index := [0, 0]
  , data := [[.num 1, .num 1, .num 1, .num 1, .num 1],
             [.num 1, .num 1, .num 1, .num 2, .num 1]]
  , indexIsDatetime := true }

/-- A zero-row frame. -/
def emptyDf : DataFrame :=
  { cols := OHLCV, index := [], data := [], indexIsDatetime := true }

/-- A well-formed sorted frame. -/
def dfGood : DataFrame :=
  { cols := OHLCV
  , index := [0, 1]
  , data := [[.num 1, .num 1, .num 1, .num 100, .num 1],
             [.num 1, .num 1, .num 1, .num 102, .num 1]]
  , indexIsDatetime := true }

/-- A provider that returns nothing for every request. -/
def emptyProvider : Provider := fun _ _ _ => none

/-- A canonical frame whose unique datetime index is not sorted. -/
def dfUnsorted : DataFrame :=
  { cols := OHLCV
  , index := [5, 3]
  , data := [[.num 1, .num 1, .num 1, .num 10, .num 1],
             [.num 1, .num 1, .num 1, .num 20, .num 1]]
  , indexIsDatetime := true }

theorem getD_append_lt {α : Type} (l m : List α) (d : α) :
    ∀ i, i < l.length → (l ++ m).getD i d = l.getD i d := by
  induction l with
  | nil => intro i h; simp at h
  | cons a l ih =>
    intro i h
    cases i with
    | zero => rfl
    | succ n =>
      simp only [List.cons_append, List.getD_cons_succ]
      exact ih n (by simpa using h)

theorem getD_append_len {α : Type} (l : List α) (x d : α) :
    (l ++ [x]).getD l.length d = x := by
  induction l with
  | nil => rfl
  | cons a l ih =>
    simp only [List.cons_append, List.length_cons, List.getD_cons_succ]
    exact ih

theorem getD_big {α : Type} (l : List α) (d : α) :
    ∀ i, l.length ≤ i → l.getD i d = d := by
  induction l with
  | nil => intro i _; cases i <;> rfl
  | cons a l ih =>
    intro i h
    cases i with
    | zero => simp at h
    | succ n =>
      simp only [List.getD_cons_succ]
      exact ih n (by simpa using h)

theorem getD_mem {α : Type} (l : List α) (d : α) :
    ∀ i, i < l.length → l.getD i d ∈ l := by
  induction l with
  | nil => intro i h; simp at h
  | cons a l ih =>
    intro i h
    cases i with
    | zero => simp [List.getD_cons_zero]
    | succ n =>
      simp only [List.getD_cons_succ]
      exact List.mem_cons_of_mem _ (ih n (by simpa using h))

theorem set_append_len {α : Type} (l : List α) (x y : α) :
    (l ++ [x]).set l.length y = l ++ [y] := by
  induction l with
  | nil => rfl
  | cons a l ih =>
    show a :: ((l ++ [x]).set l.length y) = a :: (l ++ [y])
    rw [ih]

theorem appendColVals_length (f : ℕ → FVal) :
    ∀ (l : List (List FVal)) (t0 : ℕ), (appendColVals f t0 l).length = l.length := by
  intro l
  induction l with
  | nil => intro t0; rfl
  | cons r rest ih => intro t0; simp [appendColVals, ih]

theorem appendColVals_getD (f : ℕ → FVal) :
    ∀ (l : List (List FVal)) (t0 t : ℕ), t < l.length →
      (appendColVals f t0 l).getD t [] = l.getD t [] ++ [f (t0 + t)] := by
  intro l
  induction l with
  | nil => intro t0 t h; simp at h
  | cons r rest ih =>
    intro t0 t h
    cases t with
    | zero => simp [appendColVals]
    | succ n =>
      simp only [appendColVals, List.getD_cons_succ]
      rw [ih (t0 + 1) n (by simpa using h)]
      have : t0 + 1 + n = t0 + (n + 1) := by omega
      rw [this]

theorem appendColVals_rowlen (f : ℕ → FVal) (k : ℕ) :
    ∀ (l : List (List FVal)) (t0 : ℕ), (∀ r ∈ l, r.length = k) →
      ∀ r ∈ appendColVals f t0 l, r.length = k + 1 := by
  intro l
  induction l with
  | nil => intro t0 _ r hr; simp [appendColVals] at hr
  | cons x rest ih =>
    intro t0 hall r hr
    simp only [appendColVals, List.mem_cons] at hr
    rcases hr with h | h
    · subst h
      simp [hall x (by simp)]
    · exact ih (t0 + 1) (fun q hq => hall q (by simp [hq])) r h

theorem foldl_fadd_num (l : List ℚ) :
    ∀ a : ℚ, (l.map FVal.num).foldl fadd (FVal.num a) = FVal.num (a + l.sum) := by
  induction l with
  | nil => intro a; simp
  | cons x xs ih =>
    intro a
    simp only [List.map_cons, List.foldl_cons]
    show (xs.map FVal.num).foldl fadd (FVal.num (a + x)) = _
    rw [ih (a + x), List.sum_cons, add_assoc]

theorem fdiv_num (a b : ℚ) (hb : b ≠ 0) : fdiv (.num a) (.num b) = .num (a / b) := by
  simp [fdiv, hb]

theorem rollingMean_warmup (c : ℕ → FVal) (w t : ℕ) (h : t + 1 < w) :
    rollingMean c w t = FVal.nan := by
  unfold rollingMean
  rw [if_pos h]

theorem rollingStd_warmup (c : ℕ → FVal) (w t : ℕ) (h : t + 1 < w) :
    rollingStd c w t = FVal.nan := by
  unfold rollingStd
  rw [if_pos h]

theorem rollingStd_one (c : ℕ → FVal) (t : ℕ) : rollingStd c 1 t = FVal.nan := by
  unfold rollingStd
  rw [if_neg (by omega)]
  by_cases h : (windowVals c 1 t).any (fun x => x.isNan) = true
  · rw [if_pos h]
  · rw [if_neg h, if_pos (by omega)]

theorem rollingMean_nums (c : ℕ → FVal) (w t : ℕ) (hw : 0 < w) (hle : w ≤ t + 1)
    (q : ℕ → ℚ) (hq : ∀ i, i < w → c (t + 1 - w + i) = FVal.num (q i)) :
    rollingMean c w t = FVal.num (((List.range w).map q).sum / (w : ℚ)) := by
  have hwv : windowVals c w t = ((List.range w).map q).map FVal.num := by
    unfold windowVals
    rw [List.map_map]
    apply List.map_congr_left
    intro i hi
    exact hq i (List.mem_range.mp hi)
  have hnan : (((List.range w).map q).map FVal.num).any (fun x => x.isNan) = false := by
    simp [List.any_map, Function.comp, FVal.isNan]
  unfold rollingMean
  rw [if_neg (by omega), hwv, hnan]
  rw [if_neg (by simp)]
  rw [foldl_fadd_num, zero_add, fdiv_num _ _ (by positivity)]

theorem mono_of_sorted :
    ∀ zs : List (Int × List FVal), List.Sorted rowLe zs →
      isMonotonicB (zs.map Prod.fst) = true := by
  intro zs
  induction zs with
  | nil => intro _; rfl
  | cons p rest ih =>
    intro hs
    rw [List.sorted_cons] at hs
    obtain ⟨hall, hrest⟩ := hs
    cases rest with
    | nil => rfl
    | cons qq rest2 =>
      have h1 : p.1 ≤ qq.1 := hall qq (by simp)
      have h2 := ih hrest
      simp only [List.map_cons] at h2 ⊢
      simp only [isMonotonicB, Bool.and_eq_true, decide_eq_true_eq]
      exact ⟨h1, h2⟩

theorem listInfix_nil : ∀ m : List Char, listInfix [] m = true := by
  intro m
  cases m with
  | nil => rfl
  | cons b m2 => simp [listInfix, listPrefix]

theorem listPrefix_self_append (l r : List Char) : listPrefix l (l ++ r) = true := by
  induction l with
  | nil => rfl
  | cons a l2 ih => simp [listPrefix, ih]

theorem listInfix_cons (l : List Char) (c : Char) (m : List Char)
    (h : listInfix l m = true) : listInfix l (c :: m) = true := by
  simp [listInfix, h]

theorem listInfix_sandwich (pre l suf : List Char) :
    listInfix l (pre ++ (l ++ suf)) = true := by
  induction pre with
  | nil =>
    cases l with
    | nil => simpa using listInfix_nil suf
    | cons a l2 =>
      show listInfix (a :: l2) ((a :: l2) ++ suf) = true
      have hp : listPrefix (a :: l2) (a :: (l2 ++ suf)) = true :=
        listPrefix_self_append (a :: l2) suf
      simp [listInfix, hp]
  | cons c pre2 ih => exact listInfix_cons _ _ _ ih

theorem str_data_append (a b : String) : (a ++ b).data = a.data ++ b.data := rfl

theorem containsSub_noData (t : String) : containsSub (noDataErr t).msg t = true := by
  show listInfix t.data
    ((("No data found for " ++ t) ++ ". Check ticker or date range.").data) = true
  rw [str_data_append, str_data_append, List.append_assoc]
  exact listInfix_sandwich _ _ _

theorem setCol_fresh (df : DataFrame) (name : String) (f : ℕ → FVal)
    (h : df.cols.findIdx? (· == name) = none) :
    setCol df name f =
      ⟨df.cols ++ [name], df.index, appendColVals f 0 df.data, df.indexIsDatetime⟩ := by
  unfold setCol
  rw [h]
  rfl

theorem getCol_pos (df : DataFrame) (name : String) (j : ℕ)
    (h : df.cols.findIdx? (· == name) = some j) (t : ℕ) :
    getCol df name t = (df.data.getD t []).getD j FVal.nan := by
  unfold getCol
  rw [h]
  rfl

theorem getCol_append_through (cols : List String) (idx : List Int) (dt : Bool)
    (data : List (List FVal)) (name nm : String) (f : ℕ → FVal) (j : ℕ)
    (h1 : (cols ++ [name]).findIdx? (· == nm) = some j)
    (h2 : cols.findIdx? (· == nm) = some j)
    (hjr : ∀ r ∈ data, j < r.length) (t : ℕ) :
    getCol ⟨cols ++ [name], idx, appendColVals f 0 data, dt⟩ nm t
      = getCol ⟨cols, idx, data, dt⟩ nm t := by
  rw [getCol_pos _ _ _ h1, getCol_pos _ _ _ h2]
  by_cases ht : t < data.length
  · show ((appendColVals f 0 data).getD t []).getD j FVal.nan = _
    rw [appendColVals_getD f data 0 t ht,
      getD_append_lt _ _ _ j (hjr _ (getD_mem data [] t ht))]
  · have h3 : data.length ≤ t := Nat.le_of_not_lt ht
    show ((appendColVals f 0 data).getD t []).getD j FVal.nan = _
    rw [getD_big data [] t h3, getD_big (appendColVals f 0 data) [] t
      (by rw [appendColVals_length]; exact h3)]

theorem getCol_append_self (cols : List String) (idx : List Int) (dt : Bool)
    (data : List (List FVal)) (name : String) (f : ℕ → FVal)
    (h1 : (cols ++ [name]).findIdx? (· == name) = some cols.length)
    (hrow : ∀ r ∈ data, r.length = cols.length) (t : ℕ) :
    getCol ⟨cols ++ [name], idx, appendColVals f 0 data, dt⟩ name t
      = if t < data.length then f t else FVal.nan := by
  rw [getCol_pos _ _ _ h1]
  by_cases ht : t < data.length
  · rw [if_pos ht]
    show ((appendColVals f 0 data).getD t []).getD cols.length FVal.nan = f t
    rw [appendColVals_getD f data 0 t ht]
    rw [← hrow _ (getD_mem data [] t ht)]
    rw [getD_append_len]
    rw [Nat.zero_add]
  · rw [if_neg ht]
    show ((appendColVals f 0 data).getD t []).getD cols.length FVal.nan = FVal.nan
    rw [getD_big (appendColVals f 0 data) [] t
      (by rw [appendColVals_length]; exact Nat.le_of_not_lt ht)]
    rfl

theorem featize_spec (df : DataFrame) (s l v : ℕ) (hc : df.cols = OHLCV) (hw : Wf df) :
    ((featize df s l v).cols = OHLCV ++ FEATCOLS)
    ∧ ((featize df s l v).index = df.index)
    ∧ ((featize df s l v).indexIsDatetime = df.indexIsDatetime)
    ∧ ((featize df s l v).data.length = df.data.length)
    ∧ (∀ t, getCol (featize df s l v) "Close" t = getCol df "Close" t)
    ∧ (∀ t, getCol (featize df s l v) "daily_return" t =
        if t < df.data.length then dailyReturnAt (getCol df "Close") t else FVal.nan)
    ∧ (∀ t, getCol (featize df s l v) "SMA_Short" t =
        if t < df.data.length then rollingMean (getCol df "Close") s t else FVal.nan)
    ∧ (∀ t, getCol (featize df s l v) "SMA_Long" t =
        if t < df.data.length then rollingMean (getCol df "Close") l t else FVal.nan)
    ∧ (∀ t, getCol (featize df s l v) "Rolling_Volatility" t =
        if t < df.data.length then rollingStd (getCol df "Close") v t else FVal.nan) := by
  obtain ⟨hlen, hrow0⟩ := hw
  rw [hc] at hrow0
  have hrow5 : ∀ r ∈ df.data, r.length = 5 := hrow0
  have hbase : (⟨OHLCV, df.index, df.data, df.indexIsDatetime⟩ : DataFrame) = df := by
    rw [← hc]
  have e1 : setCol df "daily_return" (dailyReturnAt (getCol df "Close")) =
      (⟨OHLCV ++ ["daily_return"], df.index,
        appendColVals (dailyReturnAt (getCol df "Close")) 0 df.data,
        df.indexIsDatetime⟩ : DataFrame) := by
    rw [setCol_fresh df _ _ (by rw [hc]; rfl), hc]
  have hrow6 : ∀ r ∈ appendColVals (dailyReturnAt (getCol df "Close")) 0 df.data,
      r.length = 6 :=
    appendColVals_rowlen _ 5 df.data 0 hrow5
  have hC1 : ∀ t, getCol (⟨OHLCV ++ ["daily_return"], df.index,
      appendColVals (dailyReturnAt (getCol df "Close")) 0 df.data,
      df.indexIsDatetime⟩ : DataFrame) "Close" t = getCol df "Close" t := by
    intro t
    have h := getCol_append_through OHLCV df.index df.indexIsDatetime df.data
      "daily_return" "Close" (dailyReturnAt (getCol df "Close")) 3 rfl rfl
      (fun r hr => by rw [hrow5 r hr]; omega) t
    rw [hbase] at h
    exact h
  have hf2 : rollingMean (getCol (⟨OHLCV ++ ["daily_return"], df.index,
      appendColVals (dailyReturnAt (getCol df "Close")) 0 df.data,
      df.indexIsDatetime⟩ : DataFrame) "Close") s
      = rollingMean (getCol df "Close") s := by
    rw [funext hC1]
  have e2 : setCol (⟨OHLCV ++ ["daily_return"], df.index,
      appendColVals (dailyReturnAt (getCol df "Close")) 0 df.data,
      df.indexIsDatetime⟩ : DataFrame) "SMA_Short" (rollingMean (getCol df "Close") s) =
      (⟨(OHLCV ++ ["daily_return"]) ++ ["SMA_Short"], df.index,
        appendColVals (rollingMean (getCol df "Close") s) 0
          (appendColVals (dailyReturnAt (getCol df "Close")) 0 df.data),
        df.indexIsDatetime⟩ : DataFrame) :=
    setCol_fresh _ _ _ rfl
  have hrow7 : ∀ r ∈ appendColVals (rollingMean (getCol df "Close") s) 0
      (appendColVals (dailyReturnAt (getCol df "Close")) 0 df.data), r.length = 7 :=
    appendColVals_rowlen _ 6 _ 0 hrow6
  have hC2 : ∀ t, getCol (⟨(OHLCV ++ ["daily_return"]) ++ ["SMA_Short"], df.index,
      appendColVals (rollingMean (getCol df "Close") s) 0
        (appendColVals (dailyReturnAt (getCol df "Close")) 0 df.data),
      df.indexIsDatetime⟩ : DataFrame) "Close" t = getCol df "Close" t := by
    intro t
    exact (getCol_append_through (OHLCV ++ ["daily_return"]) df.index df.indexIsDatetime
      (appendColVals (dailyReturnAt (getCol df "Close")) 0 df.data)
      "SMA_Short" "Close" (rollingMean (getCol df "Close") s) 3 rfl rfl
      (fun r hr => by rw [hrow6 r hr]; omega) t).trans (hC1 t)
  have hf3 : rollingMean (getCol (⟨(OHLCV ++ ["daily_return"]) ++ ["SMA_Short"], df.index,
      appendColVals (rollingMean (getCol df "Close") s) 0
        (appendColVals (dailyReturnAt (getCol df "Close")) 0 df.data),
      df.indexIsDatetime⟩ : DataFrame) "Close") l
      = rollingMean (getCol df "Close") l := by
    rw [funext hC2]
  have e3 : setCol (⟨(OHLCV ++ ["daily_return"]) ++ ["SMA_Short"], df.index,
      appendColVals (rollingMean (getCol df "Close") s) 0
        (appendColVals (dailyReturnAt (getCol df "Close")) 0 df.data),
      df.indexIsDatetime⟩ : DataFrame) "SMA_Long" (rollingMean (getCol df "Close") l) =
      (⟨((OHLCV ++ ["daily_return"]) ++ ["SMA_Short"]) ++ ["SMA_Long"], df.index,
        appendColVals (rollingMean (getCol df "Close") l) 0
          (appendColVals (rollingMean (getCol df "Close") s) 0
            (appendColVals (dailyReturnAt (getCol df "Close")) 0 df.data)),
        df.indexIsDatetime⟩ : DataFrame) :=
    setCol_fresh _ _ _ rfl
  have hrow8 : ∀ r ∈ appendColVals (rollingMean (getCol df "Close") l) 0
      (appendColVals (rollingMean (getCol df "Close") s) 0
        (appendColVals (dailyReturnAt (getCol df "Close")) 0 df.data)), r.length = 8 :=
    appendColVals_rowlen _ 7 _ 0 hrow7
  have hC3 : ∀ t, getCol (⟨((OHLCV ++ ["daily_return"]) ++ ["SMA_Short"]) ++ ["SMA_Long"],
      df.index,
      appendColVals (rollingMean (getCol df "Close") l) 0
        (appendColVals (rollingMean (getCol df "Close") s) 0
          (appendColVals (dailyReturnAt (getCol df "Close")) 0 df.data)),
      df.indexIsDatetime⟩ : DataFrame) "Close" t = getCol df "Close" t := by
    intro t
    exact (getCol_append_through ((OHLCV ++ ["daily_return"]) ++ ["SMA_Short"]) df.index
      df.indexIsDatetime
      (appendColVals (rollingMean (getCol df "Close") s) 0
        (appendColVals (dailyReturnAt (getCol df "Close")) 0 df.data))
      "SMA_Long" "Close" (rollingMean (getCol df "Close") l) 3 rfl rfl
      (fun r hr => by rw [hrow7 r hr]; omega) t).trans (hC2 t)
  have hf4 : rollingStd (getCol (⟨((OHLCV ++ ["daily_return"]) ++ ["SMA_Short"]) ++
      ["SMA_Long"], df.index,
      appendColVals (rollingMean (getCol df "Close") l) 0
        (appendColVals (rollingMean (getCol df "Close") s) 0
          (appendColVals (dailyReturnAt (getCol df "Close")) 0 df.data)),
      df.indexIsDatetime⟩ : DataFrame) "Close") v
      = rollingStd (getCol df "Close") v := by
    rw [funext hC3]
  have e4 : setCol (⟨((OHLCV ++ ["daily_return"]) ++ ["SMA_Short"]) ++ ["SMA_Long"],
      df.index,
      appendColVals (rollingMean (getCol df "Close") l) 0
        (appendColVals (rollingMean (getCol df "Close") s) 0
          (appendColVals (dailyReturnAt (getCol df "Close")) 0 df.data)),
      df.indexIsDatetime⟩ : DataFrame) "Rolling_Volatility" (rollingStd (getCol df "Close") v) =
      (⟨(((OHLCV ++ ["daily_return"]) ++ ["SMA_Short"]) ++ ["SMA_Long"]) ++
          ["Rolling_Volatility"], df.index,
        appendColVals (rollingStd (getCol df "Close") v) 0
          (appendColVals (rollingMean (getCol df "Close") l) 0
            (appendColVals (rollingMean (getCol df "Close") s) 0
              (appendColVals (dailyReturnAt (getCol df "Close")) 0 df.data))),
        df.indexIsDatetime⟩ : DataFrame) :=
    setCol_fresh _ _ _ rfl
  have hfeat : featize df s l v =
      (⟨(((OHLCV ++ ["daily_return"]) ++ ["SMA_Short"]) ++ ["SMA_Long"]) ++
          ["Rolling_Volatility"], df.index,
        appendColVals (rollingStd (getCol df "Close") v) 0
          (appendColVals (rollingMean (getCol df "Close") l) 0
            (appendColVals (rollingMean (getCol df "Close") s) 0
              (appendColVals (dailyReturnAt (getCol df "Close")) 0 df.data))),
        df.indexIsDatetime⟩ : DataFrame) := by
    simp only [featize]
    rw [e1, hf2, e2, hf3, e3, hf4, e4]
  refine ⟨?_, ?_, ?_, ?_, ?_, ?_, ?_, ?_, ?_⟩
  · rw [hfeat]
    rfl
  · rw [hfeat]
  · rw [hfeat]
  · rw [hfeat]
    show (appendColVals _ 0 _).length = _
    rw [appendColVals_length, appendColVals_length, appendColVals_length,
      appendColVals_length]
  · intro t
    rw [hfeat]
    exact (getCol_append_through (((OHLCV ++ ["daily_return"]) ++ ["SMA_Short"]) ++
      ["SMA_Long"]) df.index df.indexIsDatetime
      (appendColVals (rollingMean (getCol df "Close") l) 0
        (appendColVals (rollingMean (getCol df "Close") s) 0
          (appendColVals (dailyReturnAt (getCol df "Close")) 0 df.data)))
      "Rolling_Volatility" "Close" (rollingStd (getCol df "Close") v) 3 rfl rfl
      (fun r hr => by rw [hrow8 r hr]; omega) t).trans (hC3 t)
  · intro t
    rw [hfeat]
    have s4 := getCol_append_through (((OHLCV ++ ["daily_return"]) ++ ["SMA_Short"]) ++
      ["SMA_Long"]) df.index df.indexIsDatetime
      (appendColVals (rollingMean (getCol df "Close") l) 0
        (appendColVals (rollingMean (getCol df "Close") s) 0
          (appendColVals (dailyReturnAt (getCol df "Close")) 0 df.data)))
      "Rolling_Volatility" "daily_return" (rollingStd (getCol df "Close") v) 5 rfl rfl
      (fun r hr => by rw [hrow8 r hr]; omega) t
    have s3 := getCol_append_through ((OHLCV ++ ["daily_return"]) ++ ["SMA_Short"])
      df.index df.indexIsDatetime
      (appendColVals (rollingMean (getCol df "Close") s) 0
        (appendColVals (dailyReturnAt (getCol df "Close")) 0 df.data))
      "SMA_Long" "daily_return" (rollingMean (getCol df "Close") l) 5 rfl rfl
      (fun r hr => by rw [hrow7 r hr]; omega) t
    have s2 := getCol_append_through (OHLCV ++ ["daily_return"]) df.index df.indexIsDatetime
      (appendColVals (dailyReturnAt (getCol df "Close")) 0 df.data)
      "SMA_Short" "daily_return" (rollingMean (getCol df "Close") s) 5 rfl rfl
      (fun r hr => by rw [hrow6 r hr]; omega) t
    have s1 := getCol_append_self OHLCV df.index df.indexIsDatetime df.data
      "daily_return" (dailyReturnAt (getCol df "Close")) rfl hrow5 t
    exact ((s4.trans s3).trans s2).trans s1
  · intro t
    rw [hfeat]
    have s4 := getCol_append_through (((OHLCV ++ ["daily_return"]) ++ ["SMA_Short"]) ++
      ["SMA_Long"]) df.index df.indexIsDatetime
      (appendColVals (rollingMean (getCol df "Close") l) 0
        (appendColVals (rollingMean (getCol df "Close") s) 0
          (appendColVals (dailyReturnAt (getCol df "Close")) 0 df.data)))
      "Rolling_Volatility" "SMA_Short" (rollingStd (getCol df "Close") v) 6 rfl rfl
      (fun r hr => by rw [hrow8 r hr]; omega) t
    have s3 := getCol_append_through ((OHLCV ++ ["daily_return"]) ++ ["SMA_Short"])
      df.index df.indexIsDatetime
      (appendColVals (rollingMean (getCol df "Close") s) 0
        (appendColVals (dailyReturnAt (getCol df "Close")) 0 df.data))
      "SMA_Long" "SMA_Short" (rollingMean (getCol df "Close") l) 6 rfl rfl
      (fun r hr => by rw [hrow7 r hr]; omega) t
    have s2 := getCol_append_self (OHLCV ++ ["daily_return"]) df.index df.indexIsDatetime
      (appendColVals (dailyReturnAt (getCol df "Close")) 0 df.data)
      "SMA_Short" (rollingMean (getCol df "Close") s) rfl hrow6 t
    have hl1 : (appendColVals (dailyReturnAt (getCol df "Close")) 0 df.data).length
        = df.data.length := appendColVals_length _ _ _
    rw [hl1] at s2
    exact (s4.trans s3).trans s2
  · intro t
    rw [hfeat]
    have s4 := getCol_append_through (((OHLCV ++ ["daily_return"]) ++ ["SMA_Short"]) ++
      ["SMA_Long"]) df.index df.indexIsDatetime
      (appendColVals (rollingMean (getCol df "Close") l) 0
        (appendColVals (rollingMean (getCol df "Close") s) 0
          (appendColVals (dailyReturnAt (getCol df "Close")) 0 df.data)))
      "Rolling_Volatility" "SMA_Long" (rollingStd (getCol df "Close") v) 7 rfl rfl
      (fun r hr => by rw [hrow8 r hr]; omega) t
    have s3 := getCol_append_self ((OHLCV ++ ["daily_return"]) ++ ["SMA_Short"])
      df.index df.indexIsDatetime
      (appendColVals (rollingMean (getCol df "Close") s) 0
        (appendColVals (dailyReturnAt (getCol df "Close")) 0 df.data))
      "SMA_Long" (rollingMean (getCol df "Close") l) rfl hrow7 t
    have hl2 : (appendColVals (rollingMean (getCol df "Close") s) 0
        (appendColVals (dailyReturnAt (getCol df "Close")) 0 df.data)).length
        = df.data.length := by
      rw [appendColVals_length, appendColVals_length]
    rw [hl2] at s3
    exact s4.trans s3
  · intro t
    rw [hfeat]
    have s4 := getCol_append_self ((((OHLCV ++ ["daily_return"]) ++ ["SMA_Short"]) ++
      ["SMA_Long"])) df.index df.indexIsDatetime
      (appendColVals (rollingMean (getCol df "Close") l) 0
        (appendColVals (rollingMean (getCol df "Close") s) 0
          (appendColVals (dailyReturnAt (getCol df "Close")) 0 df.data)))
      "Rolling_Volatility" (rollingStd (getCol df "Close") v) rfl hrow8 t
    have hl3 : (appendColVals (rollingMean (getCol df "Close") l) 0
        (appendColVals (rollingMean (getCol df "Close") s) 0
          (appendColVals (dailyReturnAt (getCol df "Close")) 0 df.data))).length
        = df.data.length := by
      rw [appendColVals_length, appendColVals_length, appendColVals_length]
    rw [hl3] at s4
    exact s4

theorem addFeatures_ok (df : DataFrame) (s l v : ℕ)
    (hn : df.index ≠ []) (hcn : df.cols ≠ []) :
    addFeatures df s l v = Except.ok (featize df s l v) := by
  unfold addFeatures
  rw [if_neg]
  intro h
  simp only [Bool.or_eq_true, List.isEmpty_iff] at h
  rcases h with h | h
  · exact hn h
  · exact hcn h

theorem addFeatures_ok_inv (df : DataFrame) (s l v : ℕ) (out : DataFrame)
    (hout : addFeatures df s l v = Except.ok out) :
    out = featize df s l v ∧ df.index ≠ [] ∧ df.cols ≠ [] := by
  by_cases h : (df.index.isEmpty || df.cols.isEmpty) = true
  · unfold addFeatures at hout
    rw [if_pos h] at hout
    exact absurd hout (by simp)
  · have h2 := h
    simp only [Bool.or_eq_true, List.isEmpty_iff, not_or] at h2
    unfold addFeatures at hout
    rw [if_neg h] at hout
    exact ⟨(Except.ok.inj hout).symm, h2.1, h2.2⟩

theorem mem_missingCols (df : DataFrame) (c : String) :
    c ∈ missingCols df ↔ (c ∈ REQUIRED_COLS ∧ c ∉ df.cols) := by
  unfold missingCols
  simp [List.mem_filter]

/-- C1: for every validated canonical PriceSeries and positive windows,
add_features computes daily_return by the exact shifted-quotient formula
(undefined at the first row) and SMA_Short as the arithmetic mean of the
trailing short_window Close values (undefined during warm-up); on the
3-row Scenario A input with Close = [100, 102, 101] and short_window = 2
the SMA_Short column is [NaN, 101, 101.5] and daily_return is
[NaN, 1/50, -1/102]. -/
theorem spec_c1 (df : DataFrame) (s l v : ℕ) (hc : df.cols = OHLCV) (hw : Wf df)
    (hs : 0 < s) (hl : 0 < l) (hv : 0 < v)
    (out : DataFrame) (hout : addFeatures df s l v = Except.ok out) :
    (getCol out "daily_return" 0 = FVal.nan)
    ∧ (∀ t, 1 ≤ t → t < df.data.length →
        getCol out "daily_return" t =
          fdiv (fsub (getCol df "Close" t) (getCol df "Close" (t - 1)))
            (getCol df "Close" (t - 1)))
    ∧ (∀ t, t < df.data.length → t + 1 < s → getCol out "SMA_Short" t = FVal.nan)
    ∧ (∀ t, t < df.data.length → s ≤ t + 1 → ∀ q : ℕ → ℚ,
        (∀ i, i < s → getCol df "Close" (t + 1 - s + i) = FVal.num (q i)) →
        getCol out "SMA_Short" t = FVal.num (((List.range s).map q).sum / (s : ℚ)))
    ∧ (addFeatures dfA 2 3 3 = Except.ok outA
       ∧ getCol outA "SMA_Short" 0 = FVal.nan
       ∧ getCol outA "SMA_Short" 1 = FVal.num 101
       ∧ getCol outA "SMA_Short" 2 = FVal.num (203 / 2)
       ∧ getCol outA "daily_return" 0 = FVal.nan
       ∧ getCol outA "daily_return" 1 = FVal.num (1 / 50)
       ∧ getCol outA "daily_return" 2 = FVal.num (-1 / 102)) := by
  obtain ⟨hofe, hn, -⟩ := addFeatures_ok_inv df s l v out hout
  subst hofe
  obtain ⟨-, -, -, -, -, drspec, smaSspec, -, -⟩ := featize_spec df s l v hc hw
  have hn2 : 0 < df.data.length := by
    rw [hw.1]
    exact List.length_pos.mpr hn
  refine ⟨?_, ?_, ?_, ?_, rfl, by with_unfolding_all decide, by with_unfolding_all decide,
    by with_unfolding_all decide, by with_unfolding_all decide,
    by with_unfolding_all decide, by with_unfolding_all decide⟩
  · rw [drspec 0, if_pos hn2]
    unfold dailyReturnAt shiftOne
    rw [if_pos rfl]
    cases getCol df "Close" 0 <;> rfl
  · intro t h1 ht
    rw [drspec t, if_pos ht]
    unfold dailyReturnAt shiftOne
    rw [if_neg (by omega)]
  · intro t ht hwarm
    rw [smaSspec t, if_pos ht]
    exact rollingMean_warmup _ _ _ hwarm
  · intro t ht hle q hq
    rw [smaSspec t, if_pos ht]
    exact rollingMean_nums _ _ _ hs hle q hq

/-- C1 witness: the general SMA clause of spec_c1 instantiated at
Scenario A, row 2, short_window 2. -/
theorem spec_c1_w :
    getCol outA "SMA_Short" 2 = FVal.num (((List.range 2).map qA).sum / (2 : ℚ)) :=
  (spec_c1 dfA 2 3 3 rfl ⟨rfl, by decide⟩ (by decide) (by decide) (by decide)
    outA rfl).2.2.2.1 2 (by decide) (by decide) qA
    (by
      intro i hi
      interval_cases i
      · rfl
      · rfl)

/-- C2 counterexample: the derived columns of add_features are named
SMA_Short, SMA_Long and Rolling_Volatility, not the SMA_short, SMA_long
and rolling_volatility the claim asserts. -/
theorem spec_c2_cx :
    addFeatures dfA 2 3 3 = Except.ok outA
    ∧ outA.cols.contains "SMA_short" = false
    ∧ outA.cols.contains "SMA_long" = false
    ∧ outA.cols.contains "rolling_volatility" = false
    ∧ outA.cols.contains "daily_return" = true
    ∧ outA.cols.contains "SMA_Short" = true
    ∧ outA.cols.contains "SMA_Long" = true
    ∧ outA.cols.contains "Rolling_Volatility" = true :=
  ⟨rfl, by decide, by decide, by decide, by decide, by decide, by decide, by decide⟩

/-- C2 amended: the output column labels are exactly the five OHLCV
labels followed by daily_return, SMA_Short, SMA_Long and
Rolling_Volatility, and the CSV header on export carries the index label
followed by those same labels. -/
theorem spec_c2 (df : DataFrame) (s l v : ℕ) (hc : df.cols = OHLCV) (hw : Wf df)
    (out : DataFrame) (hout : addFeatures df s l v = Except.ok out) (lbl : String) :
    out.cols = OHLCV ++ FEATCOLS
    ∧ toCsvHeader out lbl = lbl :: (OHLCV ++ FEATCOLS)
    ∧ "daily_return" ∈ out.cols ∧ "SMA_Short" ∈ out.cols
    ∧ "SMA_Long" ∈ out.cols ∧ "Rolling_Volatility" ∈ out.cols := by
  obtain ⟨hofe, -, -⟩ := addFeatures_ok_inv df s l v out hout
  subst hofe
  obtain ⟨cspec, -, -, -, -, -, -, -, -⟩ := featize_spec df s l v hc hw
  refine ⟨cspec, ?_, ?_, ?_, ?_, ?_⟩
  · unfold toCsvHeader
    rw [cspec]
  all_goals rw [cspec]; decide

/-- C2 witness: spec_c2 instantiated at Scenario A with index label Date. -/
theorem spec_c2_w : outA.cols = OHLCV ++ FEATCOLS :=
  (spec_c2 dfA 2 3 3 rfl ⟨rfl, by decide⟩ outA rfl "Date").1

/-- C3 counterexample: two different failure conditions (empty provider
result, zero-row feature input) raise errors of the same catchable
Python class, ValueError, so the five kinds cannot be told apart by an
except clause. -/
theorem spec_c3_cx :
    fetchData emptyProvider "ZZZZ" "2020-01-01" "2020-01-02"
      = Except.error (noDataErr "ZZZZ")
    ∧ addFeatures emptyDf 2 2 2 = Except.error emptyInputErr
    ∧ (noDataErr "ZZZZ").cls = emptyInputErr.cls :=
  ⟨rfl, rfl, rfl⟩

/-- C3 amended: each of the five failure conditions raises a ValueError;
the raises are distinguishable only by message text, and the five
messages are pairwise distinct at representative inputs. -/
theorem spec_c3 :
    fetchData emptyProvider "ZZZZ" "2020-01-01" "2020-01-02"
      = Except.error (noDataErr "ZZZZ")
    ∧ (validateDf dfMissingOpen).2 = some (VErr.schema ["Open"])
    ∧ (validateDf dfBadIndex).2 = some VErr.indexType
    ∧ (validateDf dfDupTs).2 = some VErr.dupTs
    ∧ addFeatures emptyDf 2 2 2 = Except.error emptyInputErr
    ∧ (noDataErr "ZZZZ").cls = "ValueError"
    ∧ (VErr.schema ["Open"]).toPyErr.cls = "ValueError"
    ∧ VErr.indexType.toPyErr.cls = "ValueError"
    ∧ VErr.dupTs.toPyErr.cls = "ValueError"
    ∧ emptyInputErr.cls = "ValueError"
    ∧ List.Pairwise Ne
        [(noDataErr "ZZZZ").msg, (VErr.schema ["Open"]).toPyErr.msg,
         VErr.indexType.toPyErr.msg, VErr.dupTs.toPyErr.msg, emptyInputErr.msg] :=
  ⟨rfl, by decide, by decide, by decide, rfl, rfl, rfl, rfl, rfl, rfl, by decide⟩

/-- C4: on a canonical non-empty PriceSeries with positive windows,
add_features raises nothing, the output has exactly the input's row
count, and a window size exceeding the row count leaves its whole
derived column NaN. -/
theorem spec_c4 (df : DataFrame) (s l v : ℕ) (hc : df.cols = OHLCV) (hw : Wf df)
    (hn : df.index ≠ []) (hs : 0 < s) (hl : 0 < l) (hv : 0 < v) :
    addFeatures df s l v = Except.ok (featize df s l v)
    ∧ (featize df s l v).index.length = df.index.length
    ∧ (featize df s l v).data.length = df.data.length
    ∧ (df.index.length < s → ∀ t, getCol (featize df s l v) "SMA_Short" t = FVal.nan)
    ∧ (df.index.length < l → ∀ t, getCol (featize df s l v) "SMA_Long" t = FVal.nan)
    ∧ (df.index.length < v →
        ∀ t, getCol (featize df s l v) "Rolling_Volatility" t = FVal.nan) := by
  obtain ⟨-, ispec, -, lspec, -, -, smaSspec, smaLspec, volspec⟩ :=
    featize_spec df s l v hc hw
  refine ⟨addFeatures_ok df s l v hn (by rw [hc]; decide), by rw [ispec], lspec,
    ?_, ?_, ?_⟩
  · intro hbig t
    rw [smaSspec t]
    by_cases ht : t < df.data.length
    · rw [if_pos ht]
      refine rollingMean_warmup _ _ _ ?_
      have := hw.1
      omega
    · rw [if_neg ht]
  · intro hbig t
    rw [smaLspec t]
    by_cases ht : t < df.data.length
    · rw [if_pos ht]
      refine rollingMean_warmup _ _ _ ?_
      have := hw.1
      omega
    · rw [if_neg ht]
  · intro hbig t
    rw [volspec t]
    by_cases ht : t < df.data.length
    · rw [if_pos ht]
      refine rollingStd_warmup _ _ _ ?_
      have := hw.1
      omega
    · rw [if_neg ht]

/-- C4 witness: Scenario A input with short_window 10 > 3 rows — the
SMA_Short column is NaN at row 1 and no error was raised. -/
theorem spec_c4_w : getCol (featize dfA 10 3 3) "SMA_Short" 1 = FVal.nan :=
  (spec_c4 dfA 10 3 3 rfl ⟨rfl, by decide⟩ (by decide) (by decide) (by decide)
    (by decide)).2.2.2.1 (by decide) 1

/-- C5: validate_df fails with its schema error, carrying exactly the
absent required labels, iff one of {Open, High, Low, Close, Volume} is
missing; given all five it fails with the index-type error iff the index
is not a DatetimeIndex, then with the duplicate-timestamp error iff a
timestamp repeats; on a well-formed input it raises nothing. -/
theorem spec_c5 (df : DataFrame) :
    ((validateDf df).2 = some (VErr.schema (missingCols df)) ↔ missingCols df ≠ [])
    ∧ (∀ m, (validateDf df).2 = some (VErr.schema m) →
        m = missingCols df ∧ missingCols df ≠ []
        ∧ ∀ c, c ∈ m ↔ (c ∈ REQUIRED_COLS ∧ c ∉ df.cols))
    ∧ (missingCols df = [] →
        ((validateDf df).2 = some VErr.indexType ↔ df.indexIsDatetime = false))
    ∧ (missingCols df = [] → df.indexIsDatetime = true →
        ((validateDf df).2 = some VErr.dupTs ↔ hasDupB df.index = true))
    ∧ (missingCols df = [] → df.indexIsDatetime = true → hasDupB df.index = false →
        (validateDf df).2 = none) := by
  unfold validateDf
  by_cases hm : missingCols df = []
  · rw [if_neg (by simp [hm])]
    by_cases hdt : df.indexIsDatetime = false
    · rw [if_pos hdt]
      refine ⟨by simp [hm], ?_, fun _ => by simp [hdt], ?_, ?_⟩
      · intro m hmm2
        exact absurd hmm2 (by simp)
      · intro _ hdt2
        rw [hdt2] at hdt
        simp at hdt
      · intro _ hdt2 _
        rw [hdt2] at hdt
        simp at hdt
    · rw [if_neg hdt]
      have hdt2 : df.indexIsDatetime = true := by
        cases hb : df.indexIsDatetime
        · exact absurd hb hdt
        · rfl
      by_cases hdup : hasDupB df.index = true
      · rw [if_pos hdup]
        refine ⟨by simp [hm], ?_, fun _ => by simp [hdt2], fun _ _ => by simp [hdup],
          ?_⟩
        · intro m hmm2
          exact absurd hmm2 (by simp)
        · intro _ _ hdup2
          rw [hdup2] at hdup
          simp at hdup
      · rw [if_neg hdup]
        by_cases hmono : isMonotonicB df.index = true
        · rw [if_pos hmono]
          exact ⟨by simp [hm], fun m hmm2 => absurd hmm2 (by simp),
            fun _ => by simp [hdt2], fun _ _ => by simpa using hdup,
            fun _ _ _ => rfl⟩
        · rw [if_neg hmono]
          exact ⟨by simp [hm], fun m hmm2 => absurd hmm2 (by simp),
            fun _ => by simp [hdt2], fun _ _ => by simpa using hdup,
            fun _ _ _ => rfl⟩
  · rw [if_pos hm]
    refine ⟨⟨fun _ => hm, fun _ => rfl⟩, ?_, ?_, ?_, ?_⟩
    · intro m hmm2
      have hminj := VErr.schema.inj (Option.some.inj hmm2)
      exact ⟨hminj.symm, hm, fun c => by rw [← hminj]; exact mem_missingCols df c⟩
    · intro hmm3
      exact absurd hmm3 hm
    · intro hmm3 _
      exact absurd hmm3 hm
    · intro hmm3 _ _
      exact absurd hmm3 hm

/-- C5 witness: on a well-formed frame validate_df raises nothing,
via spec_c5. -/
theorem spec_c5_w : (validateDf dfGood).2 = none :=
  (spec_c5 dfGood).2.2.2.2 rfl rfl rfl

/-- C6 counterexample: a frame whose Open column is missing but whose
timestamps are present, unique, of datetime type and unsorted — the
claim mandates an in-place sort, yet validate_df raises the schema
failure first and leaves the frame untouched and unsorted. -/
theorem spec_c6_cx :
    dfC6.indexIsDatetime = true
    ∧ hasDupB dfC6.index = false
    ∧ isMonotonicB dfC6.index = false
    ∧ (validateDf dfC6).1 = dfC6
    ∧ (validateDf dfC6).1 ≠ sortByIndex dfC6
    ∧ isMonotonicB ((validateDf dfC6).1).index = false := by
  refine ⟨rfl, rfl, rfl, rfl, ?_, rfl⟩
  decide

/-- C6 amended: validate_df leaves its input unchanged in every case
except one — when all five required columns are present and the
timestamps are unique, of datetime type and not sorted ascending, it
sorts the rows in place into ascending timestamp order, a pure
permutation of the (timestamp, row) pairs that alters no values. -/
theorem spec_c6 (df : DataFrame) :
    ((missingCols df ≠ [] ∨ df.indexIsDatetime = false ∨ hasDupB df.index = true
        ∨ isMonotonicB df.index = true) → (validateDf df).1 = df)
    ∧ ((missingCols df = [] ∧ df.indexIsDatetime = true ∧ hasDupB df.index = false
        ∧ isMonotonicB df.index = false) →
      (validateDf df).1 = sortByIndex df
      ∧ ((sortByIndex df).index.zip (sortByIndex df).data).Perm
          (df.index.zip df.data)
      ∧ isMonotonicB ((validateDf df).1).index = true
      ∧ (validateDf df).1.cols = df.cols
      ∧ (validateDf df).1.indexIsDatetime = df.indexIsDatetime) := by
  have hzip : ∀ zz : List (Int × List FVal),
      (zz.map Prod.fst).zip (zz.map Prod.snd) = zz := by
    intro zz
    rw [List.zip_map']
    simp
  constructor
  · intro hd
    unfold validateDf
    by_cases hm : missingCols df = []
    · rw [if_neg (by simp [hm])]
      by_cases hdt : df.indexIsDatetime = false
      · rw [if_pos hdt]
      · rw [if_neg hdt]
        by_cases hdup : hasDupB df.index = true
        · rw [if_pos hdup]
        · rw [if_neg hdup]
          by_cases hmono : isMonotonicB df.index = true
          · rw [if_pos hmono]
          · rw [if_neg hmono]
            rcases hd with h | h | h | h
            · exact absurd hm h
            · exact absurd h hdt
            · exact absurd h hdup
            · exact absurd h hmono
    · rw [if_pos hm]
  · rintro ⟨h1, h2, h3, h4⟩
    have hval : validateDf df = (sortByIndex df, none) := by
      unfold validateDf
      rw [if_neg (by simp [h1]), if_neg (by simp [h2]), if_neg (by simp [h3]),
        if_neg (by simp [h4])]
    refine ⟨by rw [hval], ?_, ?_, by rw [hval]; rfl, by rw [hval]; rfl⟩
    · show (((df.index.zip df.data).insertionSort rowLe).map Prod.fst).zip
        (((df.index.zip df.data).insertionSort rowLe).map Prod.snd) |>.Perm _
      rw [hzip]
      exact List.perm_insertionSort rowLe _
    · rw [hval]
      exact mono_of_sorted _ (List.sorted_insertionSort rowLe _)

/-- C6 witness: on a valid but unsorted frame, validate_df returns the
sorted frame, via spec_c6. -/
theorem spec_c6_w : (validateDf dfUnsorted).1 = sortByIndex dfUnsorted :=
  ((spec_c6 dfUnsorted).2 ⟨rfl, rfl, rfl, rfl⟩).1

theorem addFeaturesHeap_eq (heap : List DataFrame) (a s l v : ℕ)
    (hne : ((heap.getD a default).index.isEmpty
      || (heap.getD a default).cols.isEmpty) = false) :
    addFeaturesHeap heap a s l v
      = (heap ++ [featize (heap.getD a default) s l v], Except.ok heap.length) := by
  simp only [addFeaturesHeap]
  rw [hne]
  simp only [Bool.false_eq_true, if_false]
  rw [getD_append_len, set_append_len]
  rw [getD_append_len, set_append_len]
  rw [getD_append_len, set_append_len]
  rw [getD_append_len, set_append_len]
  simp only [featize]

/-- C7: add_features over an explicit object heap: every pre-existing
object (the input table included) holds exactly its old value after the
call, the returned table is a freshly allocated object distinct from the
input, and running the call twice with the same arguments yields an
identical output table. -/
theorem spec_c7 (heap : List DataFrame) (a s l v : ℕ) (ha : a < heap.length) :
    (∀ i, i < heap.length →
      (addFeaturesHeap heap a s l v).1.getD i default = heap.getD i default)
    ∧ (∀ b, (addFeaturesHeap heap a s l v).2 = Except.ok b →
        heap.length ≤ b ∧ b ≠ a)
    ∧ heapOut (addFeaturesHeap ((addFeaturesHeap heap a s l v).1) a s l v)
        = heapOut (addFeaturesHeap heap a s l v) := by
  by_cases hne : ((heap.getD a default).index.isEmpty
      || (heap.getD a default).cols.isEmpty) = true
  · have he : addFeaturesHeap heap a s l v = (heap, Except.error emptyInputErr) := by
      simp only [addFeaturesHeap]
      rw [if_pos hne]
    rw [he]
    refine ⟨fun i _ => rfl, fun b hb => absurd hb (by simp), ?_⟩
    show heapOut (addFeaturesHeap heap a s l v) = heapOut (heap, Except.error emptyInputErr)
    rw [he]
  · have hne2 : ((heap.getD a default).index.isEmpty
        || (heap.getD a default).cols.isEmpty) = false := by
      cases hb : ((heap.getD a default).index.isEmpty
        || (heap.getD a default).cols.isEmpty)
      · rfl
      · exact absurd hb hne
    have he := addFeaturesHeap_eq heap a s l v hne2
    refine ⟨?_, ?_, ?_⟩
    · intro i hi
      rw [he]
      exact getD_append_lt heap _ default i hi
    · intro b hb
      rw [he] at hb
      have hb2 : heap.length = b := Except.ok.inj hb
      omega
    · rw [he]
      have hg : (heap ++ [featize (heap.getD a default) s l v]).getD a default
          = heap.getD a default := getD_append_lt heap _ default a ha
      have hne3 : (((heap ++ [featize (heap.getD a default) s l v]).getD a
            default).index.isEmpty
          || ((heap ++ [featize (heap.getD a default) s l v]).getD a
            default).cols.isEmpty) = false := by
        rw [hg]
        exact hne2
      rw [addFeaturesHeap_eq _ a s l v hne3]
      unfold heapOut
      simp only [Except.map]
      rw [hg, getD_append_len, getD_append_len]

/-- C7 witness: spec_c7 on a one-object heap holding Scenario A — the
input object is unchanged by the call. -/
theorem spec_c7_w :
    (addFeaturesHeap [dfA] 0 2 3 3).1.getD 0 default = [dfA].getD 0 default :=
  (spec_c7 [dfA] 0 2 3 3 (by decide)).1 0 (by decide)

/-- C8 counterexample: for the empty provider result on symbol ZZZZ over
2020-01-01 .. 2020-01-02, the raised message names the symbol but does
not contain either requested date, so the detail does not identify the
range. -/
theorem spec_c8_cx :
    fetchData emptyProvider "ZZZZ" "2020-01-01" "2020-01-02"
      = Except.error (noDataErr "ZZZZ")
    ∧ containsSub (noDataErr "ZZZZ").msg "2020-01-01" = false
    ∧ containsSub (noDataErr "ZZZZ").msg "2020-01-02" = false :=
  ⟨rfl, by decide, by decide⟩

/-- C8 amended: whenever the provider returns nothing, fetch_data raises
a ValueError whose message names the symbol (with generic advice to
check the ticker or the date range, the requested dates themselves not
included), and no table is produced. -/
theorem spec_c8 (pr : Provider) (tk d1 d2 : String)
    (hemp : providerEmpty pr tk d1 d2 = true) :
    fetchData pr tk d1 d2 = Except.error (noDataErr tk)
    ∧ (noDataErr tk).cls = "ValueError"
    ∧ containsSub (noDataErr tk).msg tk = true := by
  refine ⟨?_, rfl, containsSub_noData tk⟩
  unfold providerEmpty at hemp
  unfold fetchData
  cases hp : pr tk d1 d2 with
  | none => rfl
  | some r =>
    rw [hp] at hemp
    show (if pdIsEmpty r = true then Except.error (noDataErr tk)
      else Except.ok (⟨flattenLabels r.labels, r.index, r.data, true⟩ : DataFrame))
      = Except.error (noDataErr tk)
    rw [if_pos hemp]

/-- C8 witness: spec_c8 at the empty provider and symbol ZZZZ. -/
theorem spec_c8_w :
    fetchData emptyProvider "ZZZZ" "2020-01-01" "2020-01-02"
      = Except.error (noDataErr "ZZZZ") :=
  (spec_c8 emptyProvider "ZZZZ" "2020-01-01" "2020-01-02" rfl).1

theorem fdiv_sub_cases (qt qp : ℚ) :
    (fdiv (fsub (FVal.num qt) (FVal.num qp)) (FVal.num qp)).isDefined = false
      ↔ (qp = 0 ∧ qt = 0) := by
  show (if qp = 0 then (if qt - qp = 0 then FVal.nan else if 0 < qt - qp
      then FVal.inf else FVal.neginf) else FVal.num ((qt - qp) / qp)).isDefined
      = false ↔ (qp = 0 ∧ qt = 0)
  by_cases hqp : qp = 0
  · subst hqp
    rw [if_pos rfl, sub_zero]
    by_cases hqt : qt = 0
    · subst hqt
      simp [FVal.isDefined, FVal.isNan]
    · rw [if_neg hqt]
      by_cases hpos : 0 < qt
      · rw [if_pos hpos]
        simp [FVal.isDefined, FVal.isNan, hqt]
      · rw [if_neg hpos]
        simp [FVal.isDefined, FVal.isNan, hqt]
  · rw [if_neg hqp]
    simp [FVal.isDefined, FVal.isNan, hqp]

/-- C9 counterexample: the validated two-row frame with Close = [0, 0]
has a defined Close at row 0, yet daily_return at row 1 is NaN (the 0/0
case), contradicting the claim that rows with Close[t-1] = 0 get a
defined daily_return. -/
theorem spec_c9_cx :
    (validateDf df9).2 = none
    ∧ addFeatures df9 2 2 2 = Except.ok out9
    ∧ getCol df9 "Close" 0 = FVal.num 0
    ∧ (getCol df9 "Close" 0).isDefined = true
    ∧ (getCol out9 "daily_return" 1).isDefined = false := by
  refine ⟨by decide, rfl, rfl, rfl, ?_⟩
  with_unfolding_all decide

/-- C9 amended: on a validated canonical input whose Close cells are
finite or NaN, daily_return[t] is undefined iff t is the first row, or
Close[t-1] is undefined, or Close[t] is undefined, or Close[t-1] and
Close[t] are both zero (the 0/0 case); a zero Close[t-1] under a nonzero
Close[t] yields an infinite but defined value. -/
theorem spec_c9 (df : DataFrame) (s l v : ℕ) (hc : df.cols = OHLCV) (hw : Wf df)
    (out : DataFrame) (hout : addFeatures df s l v = Except.ok out)
    (hfin : ∀ i, i < df.data.length →
      getCol df "Close" i = FVal.nan ∨ ∃ q : ℚ, getCol df "Close" i = FVal.num q) :
    ∀ t, t < df.data.length →
      ((getCol out "daily_return" t).isDefined = false ↔
        (t = 0 ∨ getCol df "Close" (t - 1) = FVal.nan
          ∨ getCol df "Close" t = FVal.nan
          ∨ (getCol df "Close" (t - 1) = FVal.num 0
              ∧ getCol df "Close" t = FVal.num 0))) := by
  obtain ⟨hofe, -, -⟩ := addFeatures_ok_inv df s l v out hout
  subst hofe
  obtain ⟨-, -, -, -, -, drspec, -, -, -⟩ := featize_spec df s l v hc hw
  intro t ht
  rw [drspec t, if_pos ht]
  unfold dailyReturnAt shiftOne
  rcases Nat.eq_zero_or_pos t with h0 | hpos
  · subst h0
    rw [if_pos rfl]
    exact iff_of_true (by cases getCol df "Close" 0 <;> rfl) (Or.inl rfl)
  · rw [if_neg (by omega)]
    have htm : t - 1 < df.data.length := by omega
    rcases hfin (t - 1) htm with hp | ⟨qp, hp⟩
    · rw [hp]
      exact iff_of_true (by cases getCol df "Close" t <;> rfl)
        (Or.inr (Or.inl rfl))
    · rcases hfin t ht with hq | ⟨qt, hq⟩
      · rw [hp, hq]
        exact iff_of_true rfl (Or.inr (Or.inr (Or.inl rfl)))
      · rw [hp, hq, fdiv_sub_cases qt qp]
        constructor
        · rintro ⟨e1, e2⟩
          exact Or.inr (Or.inr (Or.inr ⟨by rw [e1], by rw [e2]⟩))
        · rintro (h | h | h | ⟨h4a, h4b⟩)
          · omega
          · exact absurd h (by simp)
          · exact absurd h (by simp)
          · exact ⟨FVal.num.inj h4a, FVal.num.inj h4b⟩

/-- C9 witness: spec_c9 applied to the zero-Close frame at row 1 — the
0/0 case makes daily_return undefined there. -/
theorem spec_c9_w : (getCol out9 "daily_return" 1).isDefined = false :=
  ((spec_c9 df9 2 2 2 rfl ⟨rfl, by decide⟩ out9 rfl
      (by
        intro i hi
        have hi2 : i < 2 := hi
        right
        interval_cases i
        · exact ⟨0, rfl⟩
        · exact ⟨0, rfl⟩))
    1 (by decide)).mpr (Or.inr (Or.inr (Or.inr ⟨rfl, rfl⟩)))

/-- C10: on a canonical non-empty PriceSeries, vol_window = 1 (positive
and not exceeding the row count) makes the Rolling_Volatility column NaN
at every row: the sample standard deviation of one observation has zero
degrees of freedom, though the warm-up rule alone would leave every row
defined. -/
theorem spec_c10 (df : DataFrame) (s l : ℕ) (hc : df.cols = OHLCV) (hw : Wf df)
    (hn : df.index ≠ []) (hs : 0 < s) (hl : 0 < l) :
    addFeatures df s l 1 = Except.ok (featize df s l 1)
    ∧ 1 ≤ df.index.length
    ∧ (∀ t, getCol (featize df s l 1) "Rolling_Volatility" t = FVal.nan) := by
  obtain ⟨-, -, -, -, -, -, -, -, volspec⟩ := featize_spec df s l 1 hc hw
  refine ⟨addFeatures_ok df s l 1 hn (by rw [hc]; decide), ?_, ?_⟩
  · have := List.length_pos.mpr hn
    omega
  · intro t
    rw [volspec t]
    by_cases ht : t < df.data.length
    · rw [if_pos ht]
      exact rollingStd_one _ _
    · rw [if_neg ht]

/-- C10 witness: spec_c10 on Scenario A — Rolling_Volatility is NaN at
row 2 despite three rows and vol_window 1. -/
theorem spec_c10_w : getCol (featize dfA 2 3 1) "Rolling_Volatility" 2 = FVal.nan :=
  (spec_c10 dfA 2 3 rfl ⟨rfl, by decide⟩ (by decide) (by decide) (by decide)).2.2 2

end Week03
